import Mathlib

/-!
Verification of the per-frame task-state engine of the CompensatoryTrackingTrask
repository (`src/ExpAssets/Resources/code/CompTrack.py`).

The Python class `CompTrack` is shallowly embedded below:

* the scheduler `generate_PVT_timestamps` (lines 147-181) becomes a pure
  function over the configured duration and inter-trial-interval bounds,
  parameterised by the stream of pseudo-random draws and by a fuel bound for
  its two `while` loops;
* the per-frame engine (`refresh`, lines 184-221, together with its helpers
  `__fetch_response`, `__capture_input`, `__compute_forces`,
  `__additional_buffeting_force`, `__write_data` and the `position` setter)
  becomes a pure state-transition function on an explicit state record.

Times are modelled by `ℚ` (the code works with floating-point seconds from a
monotonic clock).  The transcendental `sin` used by `__buffeting_force` is not
computable, so the engine is parameterised by an arbitrary function
`sinF : ℚ → ℚ` standing for the library sine routine; every theorem below
holds for all such functions.
-/

namespace CompTrack

/-! ### Scheduler: `generate_PVT_timestamps` (CompTrack.py lines 147-181) -/

/-- Computes `math.floor(np.mean([lo, hi]))` for the two integer ITI bounds. -/
def mean_floor (lo hi : ℕ) : ℕ := (lo + hi) / 2

/-- Computes `int(exp_duration / math.floor(np.mean(PVT_ITI)))` (line 153). -/
def event_count (duration lo hi : ℕ) : ℕ := duration / mean_floor lo hi

/-- The padding loop of lines 166-172.  The loop body draws a fresh value and
passes it to `np.append`, but the result of `np.append` is never assigned, so
the array — and hence `np.sum(timestamps)` — never changes.  The loop is
modelled with explicit fuel: `none` means the fuel was exhausted with the loop
still running. -/
def pad_loop (duration : ℕ) (ts : List ℕ) : ℕ → Option (List ℕ)
  | 0 => if ts.sum < duration then none else some ts
  | fuel + 1 => if ts.sum < duration then pad_loop duration ts fuel else some ts

/-- The trimming loop of lines 174-177: `while np.sum(timestamps) <
exp_duration: timestamps = timestamps[:-1]`.  (Note the guard is `<`, exactly
as in the source, although the branch is only entered when the sum is too
large.) -/
def trim_loop (duration : ℕ) : List ℕ → ℕ → Option (List ℕ)
  | ts, 0 => if ts.sum < duration then none else some ts
  | ts, fuel + 1 =>
    if ts.sum < duration then trim_loop duration ts.dropLast fuel else some ts

/-- Computes `np.cumsum` on a list of naturals. -/
def cumsum : List ℕ → List ℕ
  | [] => []
  | x :: xs => x :: (cumsum xs).map (x + ·)

/-- Embeds `generate_PVT_timestamps` (lines 147-181).  `draws n` is the value returned
by the `n`-th call to `np.random.randint(low, high + 1)`; the first
`event_count` draws fill the initial array.  `fuel` bounds the number of
iterations of either `while` loop; a `none` result means the function was
still looping when the fuel ran out. -/
def generate_PVT_timestamps (duration lo hi : ℕ) (draws : ℕ → ℕ) (fuel : ℕ) :
    Option (List ℕ) :=
  let n := event_count duration lo hi
  let timestamps := (List.range n).map draws
  if timestamps.sum < duration then (pad_loop duration timestamps fuel).map cumsum
  else if duration < timestamps.sum then (trim_loop duration timestamps fuel).map cumsum
  else some (cumsum timestamps)

/-! ### Data model of the per-frame engine -/

/-- One entry of the per-frame SDL event batch handed to `refresh`: either a
key-down event carrying the key symbol, a mouse-motion event carrying the
signed horizontal delta `xrel`, or any other event kind (ignored by the
engine). -/
inductive Event : Type
  | keydown (sym : ℕ)
  | mousemotion (xrel : ℤ)
  | other
deriving DecidableEq

/-- The key code `sdl2.keycode.SDLK_SPACE`. -/
def SDLK_SPACE : ℕ := 32

/-- The value of the `PVT_RT` field of `event_data`: the string `'NA'`, a
numeric reaction time, or the string `'TIMEOUT'`. -/
inductive Outcome : Type
  | NA
  | RT (r : ℚ)
  | TIMEOUT
deriving DecidableEq

/-- The parts of `session_params` (lines 96-111) read by the per-frame engine,
immutable during a session.  `init_time` is `self.__init_time` (line 33) and
`screen_cx` is `P.screen_c[0]`, both supplied by the environment.
`additional_force` is the modifier sequence produced at start-up by
`__compute_buffet_modifier_values` (that generator applies `np.tan` to a
geometric progression and mirror-negates it; being transcendental it is kept
abstract here as the configured list of coefficients). -/
structure SessionParams : Type where
  poll_while_moving : Bool
  poll_at_fixation : Bool
  exp_duration : ℚ
  PVT_timestamps : List ℚ
  reset_target_after_poll : Bool
  x_lo : ℤ
  x_hi : ℤ
  additional_force : List ℚ
  init_time : ℚ
  screen_cx : ℚ
deriving DecidableEq

/-- Embeds `self.current_state` (lines 116-122).  `PVT_start` is meaningful only
while `do_PVT = true` (the Python field holds `None` before the first probe;
it is only ever read while a probe is in progress). -/
structure CurrentState : Type where
  x_pos : ℚ
  do_PVT : Bool
  PVT_start : ℚ
  current_modifier : ℕ
  PVT_event_count : ℕ
deriving DecidableEq

/-- Embeds `self.event_data`, a fresh copy of `event_data_template` (lines 132-141)
each frame. -/
structure EventData : Type where
  timestamp : ℚ
  buffeting_force : ℚ
  additional_force : ℚ
  total_force : ℚ
  user_input : ℚ
  displacement : ℚ
  PVT_event : Bool
  PVT_RT : Outcome
deriving DecidableEq

/-- Embeds `event_data_template` (lines 132-141). -/
def event_data_template : EventData :=
  { timestamp := 0
    buffeting_force := 0
    additional_force := 0
    total_force := 0
    user_input := 0
    displacement := 0
    PVT_event := false
    PVT_RT := Outcome.NA }

/-- The row inserted into `comp_track_data` by `__write_data` (lines 354-370).
The `participant_id` column is an opaque environment constant and is omitted. -/
structure DBRow : Type where
  timestamp : ℚ
  buffeting_force : ℚ
  additional_force : ℚ
  total_force : ℚ
  user_input : ℚ
  target_position : ℚ
  displacement : ℚ
  PVT_event : Bool
  PVT_RT : Outcome
deriving DecidableEq

/-! ### The `position` setter (lines 400-409) -/

/-- Python `int(val)` on a float: truncation toward zero. -/
def pyint (q : ℚ) : ℤ := if 0 ≤ q then ⌊q⌋ else ⌈q⌉

/-- The `position.setter` (lines 400-409): `if int(val) not in
range(*x_bounds): val = x_bounds[0] if val < x_bounds[0] else x_bounds[1]`.
Note `range(lo, hi)` contains the integers `lo ≤ k < hi`. -/
def position_set (lo hi : ℤ) (val : ℚ) : ℚ :=
  if ¬ (lo ≤ pyint val ∧ pyint val < hi) then
    if val < (lo : ℚ) then (lo : ℚ) else (hi : ℚ)
  else val

/-! ### Scheduling phase of `refresh` (lines 191-203) -/

/-- Lines 191-203 of `refresh`: look up the next scheduled onset (if the
schedule is not yet exhausted) and fire the Idle-to-Probing transition once
the elapsed timestamp has reached it.  `t` is the value of `now()` for this
frame. -/
def check_schedule (p : SessionParams) (st : CurrentState) (t : ℚ) : CurrentState :=
  let timestamp := t - p.init_time
  let next? : Option ℚ :=
    if st.PVT_event_count < p.PVT_timestamps.length then
      some (p.PVT_timestamps.getD st.PVT_event_count 0)
    else none
  match next? with
  | some next =>
    if st.do_PVT = false then
      if next ≤ timestamp then
        { st with PVT_start := t
                  PVT_event_count := st.PVT_event_count + 1
                  do_PVT := true }
      else st
    else st
  | none => st

/-! ### Forces (`__buffeting_force`, `__additional_buffeting_force`,
`__compute_forces`, lines 256-307) -/

/-- Embeds `__buffeting_force` (lines 256-269): `sin(t) + sin(0.3*t) + sin(0.5*t) +
sin(0.7*t) - sin(0.9*t)` where `t = self.event_data['timestamp']`.  The state
argument records that the method has access to all of `self`; the theorems
show the result depends on `ev.timestamp` alone. -/
def buffeting_force (sinF : ℚ → ℚ) (st : CurrentState) (ev : EventData) : ℚ :=
  let t := ev.timestamp
  sinF t + sinF (0.3 * t) + sinF (0.5 * t) + sinF (0.7 * t) - sinF (0.9 * t)

/-- Embeds `__additional_buffeting_force` (lines 289-300): return the modifier at the
current index and advance the index, wrapping to `0` after the last element.
(Out-of-range indexing, which `numpy` would reject, is totalised with a
default of `0`; the theorems assume the index is in range.) -/
def additional_buffeting_force (p : SessionParams) (st : CurrentState) :
    CurrentState × ℚ :=
  let mod_idx := st.current_modifier
  let st2 :=
    if st.current_modifier = p.additional_force.length - 1 then
      { st with current_modifier := 0 }
    else
      { st with current_modifier := st.current_modifier + 1 }
  (st2, p.additional_force.getD mod_idx 0)

/-- Embeds `__compute_forces` (lines 303-307).  The call to
`__additional_buffeting_force` is commented out in the source, so
`additional_force` is left at its template value and
`total_force = buffeting_force`. -/
def compute_forces (sinF : ℚ → ℚ) (st : CurrentState) (ev : EventData) : EventData :=
  let b := buffeting_force sinF st ev
  { ev with buffeting_force := b, total_force := b }

/-! ### Probe response (`__fetch_response`, lines 310-332) -/

/-- The key test of lines 320-322: `event.type == SDL_KEYDOWN` and
`key.sym is sdl2.keycode.SDLK_SPACE`. -/
def is_space_keydown : Event → Bool
  | Event.keydown s => s == SDLK_SPACE
  | _ => false

/-- One iteration of the listening loop (lines 319-323): a qualifying
space-bar key-down overwrites `PVT_RT` with the elapsed time `rt`. -/
def respond_key (rt : ℚ) (e : EventData) (evt : Event) : EventData :=
  if is_space_keydown evt then { e with PVT_RT := Outcome.RT rt } else e

/-- The listening loop of lines 319-323 over the whole event batch. -/
def scan_queue (rt : ℚ) (ev : EventData) (queue : List Event) : EventData :=
  queue.foldl (respond_key rt) ev

/-- Lines 329-332: terminate the probe, and re-centre the cursor (through the
`position` setter) when `reset_target_after_poll` is configured. -/
def end_probe (p : SessionParams) (st : CurrentState) : CurrentState :=
  let st2 := { st with do_PVT := false }
  if p.reset_target_after_poll then
    { st2 with x_pos := position_set p.x_lo p.x_hi p.screen_cx }
  else st2

/-- Embeds `__fetch_response` (lines 310-332).  Returns silently when no probe is in
progress; otherwise listens for a response while `rt < 1` and times out once
`rt ≥ 1`. -/
def fetch_response (p : SessionParams) (st : CurrentState) (t : ℚ)
    (queue : List Event) (ev : EventData) : CurrentState × EventData :=
  if st.do_PVT = false then (st, ev)
  else
    let rt := t - st.PVT_start
    let ev2 :=
      if rt < 1 then scan_queue rt ev queue
      else { ev with PVT_RT := Outcome.TIMEOUT }
    if ev2.PVT_RT ≠ Outcome.NA then (end_probe p st, ev2) else (st, ev2)

/-! ### Mouse input (`__capture_input`, lines 335-350) -/

/-- One iteration of the mouse loop (lines 338-348): each `SDL_MOUSEMOTION`
event overwrites `user_input` with its `xrel` (the last motion event of the
batch wins).  The trailing `mouse_pos` recentring call only affects the OS
cursor and is outside the engine state. -/
def capture_motion (e : EventData) (evt : Event) : EventData :=
  match evt with
  | Event.mousemotion dx => { e with user_input := (dx : ℚ) }
  | _ => e

/-- Embeds `__capture_input` (lines 335-350) over the whole event batch. -/
def capture_input (ev : EventData) (queue : List Event) : EventData :=
  queue.foldl capture_motion ev

/-! ### Persistence (`__write_data`, lines 354-370) -/

/-- Embeds `__write_data` (lines 354-370): assemble the row inserted into the
database.  `displacement` is `line_segment_len(P.screen_c, [pos, screen_c_y])
= |pos - screen_cx|`, and `PVT_event` is the comparison
`event_data['PVT_RT'] is not 'NA'` of line 366. -/
def write_data (p : SessionParams) (st : CurrentState) (ev : EventData) : DBRow :=
  { timestamp := ev.timestamp
    buffeting_force := ev.buffeting_force
    additional_force := ev.additional_force
    total_force := ev.total_force
    user_input := ev.user_input
    target_position := st.x_pos
    displacement := |st.x_pos - p.screen_cx|
    PVT_event := decide (ev.PVT_RT ≠ Outcome.NA)
    PVT_RT := ev.PVT_RT }

/-! ### One full tick (`refresh`, lines 184-221) -/

/-- Lines 211-215 of `refresh`: when no probe is in progress (any more),
capture mouse input and integrate `position + total_force + user_input`
through the clamping `position` setter. -/
def track_phase (p : SessionParams) (st : CurrentState) (ev : EventData)
    (queue : List Event) : CurrentState × EventData :=
  if st.do_PVT = false then
    let ev3 := capture_input ev queue
    ({ st with
        x_pos := position_set p.x_lo p.x_hi (st.x_pos + ev3.total_force + ev3.user_input) },
      ev3)
  else (st, ev)

/-- Embeds `refresh` (lines 184-221): one full tick of the engine.  `t` is the value
of `now()` during the frame (the code samples the clock a few lines apart
within one tick; the single monotonic reading `t` stands for all of them).
Returns the state after the tick and the row handed to the database;
rendering is a pure side effect and is omitted. -/
def refresh (sinF : ℚ → ℚ) (p : SessionParams) (st : CurrentState) (t : ℚ)
    (queue : List Event) : CurrentState × DBRow :=
  let ev0 := { event_data_template with timestamp := t - p.init_time }
  let st1 := check_schedule p st t
  let fr := fetch_response p st1 t queue ev0
  let ev2 := compute_forces sinF fr.1 fr.2
  let tr := track_phase p fr.1 ev2 queue
  (tr.1, write_data p tr.1 tr.2)

/-- The projection of a sequence of `refresh` calls onto one probe's
lifecycle: starting from a state with a probe in progress, run only the
response phase `__fetch_response` on each successive frame `(t, queue)` with a
fresh `event_data`, collecting the `PVT_RT` outcome recorded on each frame.
(While `do_PVT` holds, the scheduling phase of `refresh` leaves the state
untouched, so this is exactly the probe-relevant part of successive ticks.) -/
def probe_run (p : SessionParams) (st : CurrentState) :
    List (ℚ × List Event) → List Outcome
  | [] => []
  | tk :: rest =>
    let fr := fetch_response p st tk.1 tk.2
      { event_data_template with timestamp := tk.1 - p.init_time }
    fr.2.PVT_RT :: probe_run p fr.1 rest

/-- Gating predicate following the spec's words (section 4.3: the transition
requires that "the tracking task is either in motion or at rest, as
required" by `poll_while_moving` / `poll_at_fixation`; lines 97-98 gloss
`poll_at_fixation` as probing "upon reaching centre").  This definition is
written from the spec, not from the source, for comparison with
`check_schedule`: under any reading, a configuration with both flags false
never permits a probe. -/
def policy_permits_spec (p : SessionParams) (st : CurrentState) : Bool :=
  p.poll_while_moving || (p.poll_at_fixation && (st.x_pos == p.screen_cx))

/-- Whether the event batch contains a qualifying space-bar key-down. -/
def has_space (queue : List Event) : Bool := queue.any is_space_keydown

/-- Number of frames of a probe run on which a response outcome (a numeric
reaction time or a timeout) was recorded. -/
def response_count (os : List Outcome) : ℕ :=
  os.countP (fun o => decide (o ≠ Outcome.NA))

/-! ### Concrete session data used by the witnesses and counterexamples -/

/-- A stand-in for the library sine routine on concrete runs. -/
def sinF0 : ℚ → ℚ := fun _ => 0

/-- A concrete session configuration: two probes scheduled at 2 s and 12 s,
cursor bounds `[1, 900]`, recentring enabled. -/
def p0 : SessionParams :=
  { poll_while_moving := true
    poll_at_fixation := false
    exp_duration := 300
    PVT_timestamps := [2, 12]
    reset_target_after_poll := true
    x_lo := 1
    x_hi := 900
    additional_force := [1, 2, 3]
    init_time := 0
    screen_cx := 450 }

/-- The configuration `p0` with both polling-policy flags disabled. -/
def p_noPoll : SessionParams :=
  { p0 with poll_while_moving := false, poll_at_fixation := false }

/-- A concrete idle engine state at session start. -/
def st0 : CurrentState :=
  { x_pos := 450
    do_PVT := false
    PVT_start := 0
    current_modifier := 0
    PVT_event_count := 0 }

/-- A concrete state with a probe in progress that began at `t = 5`. -/
def stP : CurrentState :=
  { x_pos := 450
    do_PVT := true
    PVT_start := 5
    current_modifier := 0
    PVT_event_count := 1 }

/-! ### Reduction lemmas for the engine phases -/

theorem rt_ne_NA (r : ℚ) : Outcome.RT r ≠ Outcome.NA := fun h => Outcome.noConfusion h

theorem timeout_ne_NA : Outcome.TIMEOUT ≠ Outcome.NA := fun h => Outcome.noConfusion h

theorem respond_key_PVT_RT (rt : ℚ) (ev : EventData) (e : Event) :
    (respond_key rt ev e).PVT_RT =
      if is_space_keydown e = true then Outcome.RT rt else ev.PVT_RT := by
  unfold respond_key
  by_cases he : is_space_keydown e = true <;> simp [he]

theorem scan_queue_PVT_RT (rt : ℚ) (q : List Event) : ∀ ev : EventData,
    (scan_queue rt ev q).PVT_RT =
      if has_space q = true then Outcome.RT rt else ev.PVT_RT := by
  induction q with
  | nil => intro ev; simp [scan_queue, has_space]
  | cons e q ih =>
    intro ev
    have hstep : scan_queue rt ev (e :: q) = scan_queue rt (respond_key rt ev e) q := rfl
    rw [hstep, ih, respond_key_PVT_RT]
    by_cases he : is_space_keydown e = true
    · have h2 : has_space (e :: q) = true := by simp [has_space, he]
      rw [h2]
      by_cases hq : has_space q = true <;> simp [hq, he]
    · have h2 : has_space (e :: q) = has_space q := by simp [has_space, he]
      rw [h2]
      simp [he]

theorem scan_queue_preserves (rt : ℚ) (q : List Event) : ∀ ev : EventData,
    (scan_queue rt ev q).timestamp = ev.timestamp ∧
    (scan_queue rt ev q).user_input = ev.user_input ∧
    (scan_queue rt ev q).additional_force = ev.additional_force := by
  induction q with
  | nil => intro ev; exact ⟨rfl, rfl, rfl⟩
  | cons e q ih =>
    intro ev
    have hstep : scan_queue rt ev (e :: q) = scan_queue rt (respond_key rt ev e) q := rfl
    have hm : (respond_key rt ev e).timestamp = ev.timestamp ∧
        (respond_key rt ev e).user_input = ev.user_input ∧
        (respond_key rt ev e).additional_force = ev.additional_force := by
      unfold respond_key
      by_cases he : is_space_keydown e = true <;> simp [he]
    obtain ⟨a, b, c⟩ := ih (respond_key rt ev e)
    exact ⟨hstep ▸ a.trans hm.1, hstep ▸ b.trans hm.2.1, hstep ▸ c.trans hm.2.2⟩

theorem capture_input_preserves (q : List Event) : ∀ ev : EventData,
    (capture_input ev q).PVT_RT = ev.PVT_RT ∧
    (capture_input ev q).timestamp = ev.timestamp ∧
    (capture_input ev q).additional_force = ev.additional_force ∧
    (capture_input ev q).total_force = ev.total_force ∧
    (capture_input ev q).buffeting_force = ev.buffeting_force := by
  induction q with
  | nil => intro ev; exact ⟨rfl, rfl, rfl, rfl, rfl⟩
  | cons e q ih =>
    intro ev
    have hstep : capture_input ev (e :: q) = capture_input (capture_motion ev e) q := rfl
    have hm : (capture_motion ev e).PVT_RT = ev.PVT_RT ∧
        (capture_motion ev e).timestamp = ev.timestamp ∧
        (capture_motion ev e).additional_force = ev.additional_force ∧
        (capture_motion ev e).total_force = ev.total_force ∧
        (capture_motion ev e).buffeting_force = ev.buffeting_force := by
      unfold capture_motion
      cases e <;> exact ⟨rfl, rfl, rfl, rfl, rfl⟩
    obtain ⟨a, b, c, d, f⟩ := ih (capture_motion ev e)
    exact ⟨hstep ▸ a.trans hm.1, hstep ▸ b.trans hm.2.1, hstep ▸ c.trans hm.2.2.1,
      hstep ▸ d.trans hm.2.2.2.1, hstep ▸ f.trans hm.2.2.2.2⟩

theorem end_probe_fields (p : SessionParams) (st : CurrentState) :
    (end_probe p st).do_PVT = false ∧
    (end_probe p st).PVT_start = st.PVT_start ∧
    (end_probe p st).current_modifier = st.current_modifier ∧
    (end_probe p st).PVT_event_count = st.PVT_event_count := by
  unfold end_probe
  by_cases hr : p.reset_target_after_poll = true <;> simp [hr]

theorem fetch_inactive (p : SessionParams) (st : CurrentState) (t : ℚ)
    (q : List Event) (ev : EventData) (h : st.do_PVT = false) :
    fetch_response p st t q ev = (st, ev) := by
  unfold fetch_response
  simp [h]

theorem fetch_timeout (p : SessionParams) (st : CurrentState) (t : ℚ)
    (q : List Event) (ev : EventData) (h : st.do_PVT = true)
    (hrt : 1 ≤ t - st.PVT_start) :
    fetch_response p st t q ev = (end_probe p st, { ev with PVT_RT := Outcome.TIMEOUT }) := by
  unfold fetch_response
  simp [h, not_lt.mpr hrt, timeout_ne_NA]

theorem fetch_rt (p : SessionParams) (st : CurrentState) (t : ℚ)
    (q : List Event) (ev : EventData) (h : st.do_PVT = true)
    (hrt : t - st.PVT_start < 1) (hq : has_space q = true) :
    fetch_response p st t q ev = (end_probe p st, scan_queue (t - st.PVT_start) ev q) ∧
    (scan_queue (t - st.PVT_start) ev q).PVT_RT = Outcome.RT (t - st.PVT_start) := by
  have hscan := scan_queue_PVT_RT (t - st.PVT_start) q ev
  rw [hq, if_pos rfl] at hscan
  refine ⟨?_, hscan⟩
  unfold fetch_response
  simp [h, hrt, hscan, rt_ne_NA]

theorem fetch_na (p : SessionParams) (st : CurrentState) (t : ℚ)
    (q : List Event) (ev : EventData) (h : st.do_PVT = true)
    (hrt : t - st.PVT_start < 1) (hq : has_space q = false)
    (hev : ev.PVT_RT = Outcome.NA) :
    fetch_response p st t q ev = (st, scan_queue (t - st.PVT_start) ev q) ∧
    (scan_queue (t - st.PVT_start) ev q).PVT_RT = Outcome.NA := by
  have hscan := scan_queue_PVT_RT (t - st.PVT_start) q ev
  rw [hq] at hscan
  simp only [Bool.false_eq_true, if_false] at hscan
  rw [hev] at hscan
  refine ⟨?_, hscan⟩
  unfold fetch_response
  simp [h, hrt, hscan]

theorem fetch_state_cases (p : SessionParams) (st : CurrentState) (t : ℚ)
    (q : List Event) (ev : EventData) (hev : ev.PVT_RT = Outcome.NA) :
    fetch_response p st t q ev = (st, ev) ∨
    ((fetch_response p st t q ev).1 = st ∧ st.do_PVT = true) ∨
    ((fetch_response p st t q ev).1 = end_probe p st ∧ st.do_PVT = true) := by
  by_cases h : st.do_PVT = false
  · exact Or.inl (fetch_inactive p st t q ev h)
  · have h' : st.do_PVT = true := by
      cases hd : st.do_PVT
      · exact absurd hd h
      · rfl
    by_cases hrt : t - st.PVT_start < 1
    · by_cases hq : has_space q = true
      · exact Or.inr (Or.inr ⟨by rw [(fetch_rt p st t q ev h' hrt hq).1], h'⟩)
      · have hq' : has_space q = false := by
          cases hb : has_space q
          · rfl
          · exact absurd hb hq
        exact Or.inr (Or.inl ⟨by rw [(fetch_na p st t q ev h' hrt hq' hev).1], h'⟩)
    · exact Or.inr (Or.inr ⟨by rw [fetch_timeout p st t q ev h' (not_lt.mp hrt)], h'⟩)

theorem fetch_state_fields (p : SessionParams) (st : CurrentState) (t : ℚ)
    (q : List Event) (ev : EventData) (hev : ev.PVT_RT = Outcome.NA) :
    (fetch_response p st t q ev).1.PVT_start = st.PVT_start ∧
    (fetch_response p st t q ev).1.current_modifier = st.current_modifier ∧
    (fetch_response p st t q ev).1.PVT_event_count = st.PVT_event_count := by
  rcases fetch_state_cases p st t q ev hev with h | ⟨h, _⟩ | ⟨h, _⟩
  · rw [h]
    exact ⟨rfl, rfl, rfl⟩
  · rw [h]
    exact ⟨rfl, rfl, rfl⟩
  · rw [h]
    obtain ⟨_, a, b, c⟩ := end_probe_fields p st
    exact ⟨a, b, c⟩

theorem fetch_active_result (p : SessionParams) (st : CurrentState) (t : ℚ)
    (q : List Event) (ev : EventData) (hev : ev.PVT_RT = Outcome.NA)
    (h2 : (fetch_response p st t q ev).1.do_PVT = true) :
    (fetch_response p st t q ev).1 = st ∧ st.do_PVT = true ∧
    (fetch_response p st t q ev).2.PVT_RT = Outcome.NA := by
  by_cases h : st.do_PVT = false
  · exfalso
    have heq := fetch_inactive p st t q ev h
    rw [heq] at h2
    simp only [h] at h2
    exact Bool.noConfusion h2
  · have h' : st.do_PVT = true := by
      cases hd : st.do_PVT
      · exact absurd hd h
      · rfl
    by_cases hrt : t - st.PVT_start < 1
    · by_cases hq : has_space q = true
      · exfalso
        have := (fetch_rt p st t q ev h' hrt hq).1
        rw [this] at h2
        exact absurd h2 (by simp [(end_probe_fields p st).1])
      · have hq' : has_space q = false := by
          cases hb : has_space q
          · rfl
          · exact absurd hb hq
        have hna := fetch_na p st t q ev h' hrt hq' hev
        rw [hna.1]
        exact ⟨rfl, h', hna.2⟩
    · exfalso
      have := fetch_timeout p st t q ev h' (not_lt.mp hrt)
      rw [this] at h2
      exact absurd h2 (by simp [(end_probe_fields p st).1])

theorem fetch_ev_snd (p : SessionParams) (st : CurrentState) (t : ℚ)
    (q : List Event) (ev : EventData) :
    (fetch_response p st t q ev).2 = ev ∨
    (fetch_response p st t q ev).2 = scan_queue (t - st.PVT_start) ev q ∨
    (fetch_response p st t q ev).2 = { ev with PVT_RT := Outcome.TIMEOUT } := by
  unfold fetch_response
  by_cases h : st.do_PVT = false
  · simp [h]
  · by_cases hrt : t - st.PVT_start < 1
    · simp only [h, hrt]
      by_cases hcond :
          (scan_queue (t - st.PVT_start) ev q).PVT_RT ≠ Outcome.NA <;>
        simp [hcond]
    · simp only [h, hrt]
      by_cases hcond :
          (({ ev with PVT_RT := Outcome.TIMEOUT } : EventData)).PVT_RT ≠ Outcome.NA <;>
        simp [hcond]

theorem fetch_ev_fields (p : SessionParams) (st : CurrentState) (t : ℚ)
    (q : List Event) (ev : EventData) :
    (fetch_response p st t q ev).2.user_input = ev.user_input ∧
    (fetch_response p st t q ev).2.timestamp = ev.timestamp ∧
    (fetch_response p st t q ev).2.additional_force = ev.additional_force := by
  rcases fetch_ev_snd p st t q ev with h | h | h <;> rw [h]
  · exact ⟨rfl, rfl, rfl⟩
  · obtain ⟨a, b, c⟩ := scan_queue_preserves (t - st.PVT_start) q ev
    exact ⟨b, a, c⟩
  · exact ⟨rfl, rfl, rfl⟩

theorem fetch_terminates_iff (p : SessionParams) (st : CurrentState) (t : ℚ)
    (q : List Event) (ev : EventData) (hev : ev.PVT_RT = Outcome.NA) :
    (fetch_response p st t q ev).2.PVT_RT ≠ Outcome.NA ↔
      st.do_PVT = true ∧ (fetch_response p st t q ev).1.do_PVT = false := by
  by_cases h : st.do_PVT = false
  · rw [fetch_inactive p st t q ev h]
    simp [hev, h]
  · have h' : st.do_PVT = true := by
      cases hd : st.do_PVT
      · exact absurd hd h
      · rfl
    by_cases hrt : t - st.PVT_start < 1
    · by_cases hq : has_space q = true
      · have hr := fetch_rt p st t q ev h' hrt hq
        rw [hr.1]
        simp [hr.2, rt_ne_NA, h', (end_probe_fields p st).1]
      · have hq' : has_space q = false := by
          cases hb : has_space q
          · rfl
          · exact absurd hb hq
        have hna := fetch_na p st t q ev h' hrt hq' hev
        rw [hna.1]
        simp [hna.2, h']
    · rw [fetch_timeout p st t q ev h' (not_lt.mp hrt)]
      simp [timeout_ne_NA, h', (end_probe_fields p st).1]

theorem check_schedule_active (p : SessionParams) (st : CurrentState) (t : ℚ)
    (h : st.do_PVT = true) : check_schedule p st t = st := by
  unfold check_schedule
  by_cases hc : st.PVT_event_count < p.PVT_timestamps.length <;> simp [hc, h]

theorem check_schedule_fire (p : SessionParams) (st : CurrentState) (t : ℚ)
    (h : st.do_PVT = false) (hc : st.PVT_event_count < p.PVT_timestamps.length)
    (ht : p.PVT_timestamps.getD st.PVT_event_count 0 ≤ t - p.init_time) :
    check_schedule p st t =
      { st with PVT_start := t
                PVT_event_count := st.PVT_event_count + 1
                do_PVT := true } := by
  have hte := ht
  rw [List.getD_eq_getElem _ _ hc] at hte
  unfold check_schedule
  simp [hc, h, hte]

theorem check_schedule_no_fire (p : SessionParams) (st : CurrentState) (t : ℚ)
    (h : ¬ (st.do_PVT = false ∧ st.PVT_event_count < p.PVT_timestamps.length ∧
      p.PVT_timestamps.getD st.PVT_event_count 0 ≤ t - p.init_time)) :
    check_schedule p st t = st := by
  unfold check_schedule
  by_cases hc : st.PVT_event_count < p.PVT_timestamps.length
  · by_cases ht : p.PVT_timestamps.getD st.PVT_event_count 0 ≤ t - p.init_time
    · by_cases hd : st.do_PVT = false
      · exact absurd ⟨hd, hc, ht⟩ h
      · simp [hc, hd]
    · have hte := ht
      rw [List.getD_eq_getElem _ _ hc] at hte
      by_cases hd : st.do_PVT = false <;> simp [hc, hd, hte]
  · simp [hc]

theorem check_schedule_cases (p : SessionParams) (st : CurrentState) (t : ℚ) :
    check_schedule p st t = st ∨
    (check_schedule p st t =
        { st with PVT_start := t
                  PVT_event_count := st.PVT_event_count + 1
                  do_PVT := true } ∧
      st.do_PVT = false ∧ st.PVT_event_count < p.PVT_timestamps.length ∧
      p.PVT_timestamps.getD st.PVT_event_count 0 ≤ t - p.init_time) := by
  by_cases h : st.do_PVT = false ∧ st.PVT_event_count < p.PVT_timestamps.length ∧
      p.PVT_timestamps.getD st.PVT_event_count 0 ≤ t - p.init_time
  · exact Or.inr ⟨check_schedule_fire p st t h.1 h.2.1 h.2.2, h⟩
  · exact Or.inl (check_schedule_no_fire p st t h)

theorem check_schedule_x_pos (p : SessionParams) (st : CurrentState) (t : ℚ) :
    (check_schedule p st t).x_pos = st.x_pos := by
  rcases check_schedule_cases p st t with h | ⟨h, _⟩ <;> rw [h]

theorem check_schedule_modifier (p : SessionParams) (st : CurrentState) (t : ℚ) :
    (check_schedule p st t).current_modifier = st.current_modifier := by
  rcases check_schedule_cases p st t with h | ⟨h, _⟩ <;> rw [h]

theorem check_schedule_count_le (p : SessionParams) (st : CurrentState) (t : ℚ) :
    (check_schedule p st t).PVT_event_count ≤ st.PVT_event_count + 1 := by
  rcases check_schedule_cases p st t with h | ⟨h, _⟩ <;> rw [h]
  exact Nat.le_succ _

theorem track_phase_active (p : SessionParams) (st : CurrentState) (ev : EventData)
    (q : List Event) (h : st.do_PVT = true) : track_phase p st ev q = (st, ev) := by
  unfold track_phase
  simp [h]

theorem track_phase_fields (p : SessionParams) (st : CurrentState) (ev : EventData)
    (q : List Event) :
    (track_phase p st ev q).1.do_PVT = st.do_PVT ∧
    (track_phase p st ev q).1.PVT_start = st.PVT_start ∧
    (track_phase p st ev q).1.current_modifier = st.current_modifier ∧
    (track_phase p st ev q).1.PVT_event_count = st.PVT_event_count := by
  unfold track_phase
  by_cases h : st.do_PVT = false <;> simp [h]

theorem compute_forces_fields (sinF : ℚ → ℚ) (st : CurrentState) (ev : EventData) :
    (compute_forces sinF st ev).PVT_RT = ev.PVT_RT ∧
    (compute_forces sinF st ev).user_input = ev.user_input ∧
    (compute_forces sinF st ev).additional_force = ev.additional_force ∧
    (compute_forces sinF st ev).timestamp = ev.timestamp ∧
    (compute_forces sinF st ev).total_force = buffeting_force sinF st ev ∧
    (compute_forces sinF st ev).buffeting_force = buffeting_force sinF st ev :=
  ⟨rfl, rfl, rfl, rfl, rfl, rfl⟩

theorem track_phase_ev_fields (p : SessionParams) (st : CurrentState) (ev : EventData)
    (q : List Event) :
    (track_phase p st ev q).2.PVT_RT = ev.PVT_RT ∧
    (track_phase p st ev q).2.additional_force = ev.additional_force ∧
    (track_phase p st ev q).2.total_force = ev.total_force ∧
    (track_phase p st ev q).2.buffeting_force = ev.buffeting_force ∧
    (track_phase p st ev q).2.timestamp = ev.timestamp := by
  unfold track_phase
  by_cases h : st.do_PVT = false
  · obtain ⟨a, b, c, d, f⟩ := capture_input_preserves q ev
    simp [h, a, b, c, d, f]
  · simp [h]

theorem refresh_eq (sinF : ℚ → ℚ) (p : SessionParams) (st : CurrentState) (t : ℚ)
    (q : List Event) :
    refresh sinF p st t q =
      ((track_phase p
          (fetch_response p (check_schedule p st t) t q
            { event_data_template with timestamp := t - p.init_time }).1
          (compute_forces sinF
            (fetch_response p (check_schedule p st t) t q
              { event_data_template with timestamp := t - p.init_time }).1
            (fetch_response p (check_schedule p st t) t q
              { event_data_template with timestamp := t - p.init_time }).2)
          q).1,
        write_data p
          (track_phase p
            (fetch_response p (check_schedule p st t) t q
              { event_data_template with timestamp := t - p.init_time }).1
            (compute_forces sinF
              (fetch_response p (check_schedule p st t) t q
                { event_data_template with timestamp := t - p.init_time }).1
              (fetch_response p (check_schedule p st t) t q
                { event_data_template with timestamp := t - p.init_time }).2)
            q).1
          (track_phase p
            (fetch_response p (check_schedule p st t) t q
              { event_data_template with timestamp := t - p.init_time }).1
            (compute_forces sinF
              (fetch_response p (check_schedule p st t) t q
                { event_data_template with timestamp := t - p.init_time }).1
              (fetch_response p (check_schedule p st t) t q
                { event_data_template with timestamp := t - p.init_time }).2)
            q).2) := rfl

theorem refresh_state_fields (sinF : ℚ → ℚ) (p : SessionParams) (st : CurrentState)
    (t : ℚ) (q : List Event) :
    (refresh sinF p st t q).1.PVT_start = (check_schedule p st t).PVT_start ∧
    (refresh sinF p st t q).1.PVT_event_count = (check_schedule p st t).PVT_event_count ∧
    (refresh sinF p st t q).1.current_modifier = st.current_modifier ∧
    (refresh sinF p st t q).1.do_PVT =
      (fetch_response p (check_schedule p st t) t q
        { event_data_template with timestamp := t - p.init_time }).1.do_PVT := by
  have h1 := track_phase_fields p
    (fetch_response p (check_schedule p st t) t q
      { event_data_template with timestamp := t - p.init_time }).1
    (compute_forces sinF
      (fetch_response p (check_schedule p st t) t q
        { event_data_template with timestamp := t - p.init_time }).1
      (fetch_response p (check_schedule p st t) t q
        { event_data_template with timestamp := t - p.init_time }).2) q
  have h2 := fetch_state_fields p (check_schedule p st t) t q
    { event_data_template with timestamp := t - p.init_time } rfl
  have h3 := check_schedule_modifier p st t
  exact ⟨h1.2.1.trans h2.1, h1.2.2.2.trans h2.2.2, h1.2.2.1.trans (h2.2.1.trans h3), h1.1⟩

theorem refresh_row_PVT_RT (sinF : ℚ → ℚ) (p : SessionParams) (st : CurrentState)
    (t : ℚ) (q : List Event) :
    (refresh sinF p st t q).2.PVT_RT =
      (fetch_response p (check_schedule p st t) t q
        { event_data_template with timestamp := t - p.init_time }).2.PVT_RT ∧
    (refresh sinF p st t q).2.PVT_event =
      decide ((fetch_response p (check_schedule p st t) t q
        { event_data_template with timestamp := t - p.init_time }).2.PVT_RT ≠ Outcome.NA) := by
  have h1 := track_phase_ev_fields p
    (fetch_response p (check_schedule p st t) t q
      { event_data_template with timestamp := t - p.init_time }).1
    (compute_forces sinF
      (fetch_response p (check_schedule p st t) t q
        { event_data_template with timestamp := t - p.init_time }).1
      (fetch_response p (check_schedule p st t) t q
        { event_data_template with timestamp := t - p.init_time }).2) q
  have h2 := compute_forces_fields sinF
    (fetch_response p (check_schedule p st t) t q
      { event_data_template with timestamp := t - p.init_time }).1
    (fetch_response p (check_schedule p st t) t q
      { event_data_template with timestamp := t - p.init_time }).2
  have hrt : (refresh sinF p st t q).2.PVT_RT =
      (fetch_response p (check_schedule p st t) t q
        { event_data_template with timestamp := t - p.init_time }).2.PVT_RT :=
    h1.1.trans h2.1
  exact ⟨hrt, by rw [show (refresh sinF p st t q).2.PVT_event =
    decide ((track_phase p
      (fetch_response p (check_schedule p st t) t q
        { event_data_template with timestamp := t - p.init_time }).1
      (compute_forces sinF
        (fetch_response p (check_schedule p st t) t q
          { event_data_template with timestamp := t - p.init_time }).1
        (fetch_response p (check_schedule p st t) t q
          { event_data_template with timestamp := t - p.init_time }).2) q).2.PVT_RT ≠
        Outcome.NA) from rfl, h1.1, h2.1]⟩

/-! ### Lemmas on one probe's lifecycle -/

theorem probe_run_cons (p : SessionParams) (st : CurrentState) (tk : ℚ × List Event)
    (rest : List (ℚ × List Event)) :
    probe_run p st (tk :: rest) =
      (fetch_response p st tk.1 tk.2
          { event_data_template with timestamp := tk.1 - p.init_time }).2.PVT_RT ::
        probe_run p
          (fetch_response p st tk.1 tk.2
            { event_data_template with timestamp := tk.1 - p.init_time }).1
          rest := rfl

theorem probe_run_inactive (p : SessionParams) (st : CurrentState)
    (h : st.do_PVT = false) :
    ∀ ticks : List (ℚ × List Event),
      probe_run p st ticks = List.replicate ticks.length Outcome.NA := by
  intro ticks
  induction ticks with
  | nil => rfl
  | cons tk rest ih =>
    rw [probe_run_cons,
      fetch_inactive p st tk.1 tk.2 { event_data_template with timestamp := tk.1 - p.init_time } h]
    show Outcome.NA :: probe_run p st rest = List.replicate (tk :: rest).length Outcome.NA
    rw [List.length_cons, List.replicate_succ, ih]

theorem response_count_nil : response_count [] = 0 := rfl

theorem response_count_cons_NA (os : List Outcome) :
    response_count (Outcome.NA :: os) = response_count os := by
  simp [response_count, List.countP_cons]

theorem response_count_cons (o : Outcome) (os : List Outcome) (h : o ≠ Outcome.NA) :
    response_count (o :: os) = response_count os + 1 := by
  simp [response_count, List.countP_cons, h]

theorem response_count_replicate_NA (n : ℕ) :
    response_count (List.replicate n Outcome.NA) = 0 := by
  induction n with
  | zero => rfl
  | succ n ih => rw [List.replicate_succ, response_count_cons_NA, ih]

theorem timeout_not_mem_replicate_NA (n : ℕ) :
    Outcome.TIMEOUT ∉ List.replicate n Outcome.NA := by
  intro h
  exact timeout_ne_NA (List.eq_of_mem_replicate h)

theorem probe_run_spec_aux (p : SessionParams) (st : CurrentState) (h1 : st.do_PVT = true) :
    ∀ ticks : List (ℚ × List Event),
      (∀ tk ∈ ticks, st.PVT_start ≤ tk.1) →
      List.Pairwise (fun a b : ℚ × List Event => a.1 ≤ b.1) ticks →
      ((∀ o ∈ probe_run p st ticks, ∀ r : ℚ, o = Outcome.RT r → 0 ≤ r ∧ r < 1) ∧
        response_count (probe_run p st ticks) ≤ 1 ∧
        ((∃ tk ∈ ticks, st.PVT_start + 1 ≤ tk.1) →
          response_count (probe_run p st ticks) = 1) ∧
        (Outcome.TIMEOUT ∈ probe_run p st ticks ↔
          ((∃ tk ∈ ticks, st.PVT_start + 1 ≤ tk.1) ∧
            ∀ tk ∈ ticks, tk.1 < st.PVT_start + 1 → has_space tk.2 = false))) := by
  intro ticks
  induction ticks with
  | nil =>
    intro _ _
    refine ⟨fun o ho => absurd ho (List.not_mem_nil o), Nat.zero_le 1, ?_, ?_⟩
    · rintro ⟨tk, htk, -⟩
      exact absurd htk (List.not_mem_nil tk)
    · constructor
      · intro hmem
        exact absurd hmem (List.not_mem_nil _)
      · rintro ⟨⟨tk, htk, -⟩, -⟩
        exact absurd htk (List.not_mem_nil tk)
  | cons tk rest ih =>
    intro h2 h3
    obtain ⟨t, q⟩ := tk
    by_cases hA : 1 ≤ t - st.PVT_start
    · have hf := fetch_timeout p st t q
        { event_data_template with timestamp := t - p.init_time } h1 hA
      have hrun : probe_run p st ((t, q) :: rest) =
          Outcome.TIMEOUT :: List.replicate rest.length Outcome.NA := by
        rw [probe_run_cons, hf]
        show Outcome.TIMEOUT :: probe_run p (end_probe p st) rest = _
        rw [probe_run_inactive p (end_probe p st) (end_probe_fields p st).1 rest]
      have hst1 : st.PVT_start + 1 ≤ t := by linarith
      refine ⟨?_, ?_, ?_, ?_⟩
      · intro o ho r hr
        rw [hrun] at ho
        rcases List.mem_cons.mp ho with h | h
        · rw [h] at hr
          exact absurd hr (fun hh => Outcome.noConfusion hh)
        · rw [List.eq_of_mem_replicate h] at hr
          exact absurd hr (fun hh => Outcome.noConfusion hh)
      · rw [hrun, response_count_cons _ _ timeout_ne_NA, response_count_replicate_NA]
      · intro _
        rw [hrun, response_count_cons _ _ timeout_ne_NA, response_count_replicate_NA]
      · rw [hrun]
        constructor
        · intro _
          refine ⟨⟨(t, q), List.mem_cons_self _ _, hst1⟩, ?_⟩
          intro tk2 htk2 hlt2
          rcases List.mem_cons.mp htk2 with h | h
          · rw [h] at hlt2
            exact absurd hlt2 (not_lt.mpr hst1)
          · have hle : t ≤ tk2.1 := (List.pairwise_cons.mp h3).1 tk2 h
            exact absurd hlt2 (not_lt.mpr (by linarith))
        · intro _
          exact List.mem_cons_self _ _
    · have hA' : t - st.PVT_start < 1 := not_le.mp hA
      by_cases hq : has_space q = true
      · have hf := fetch_rt p st t q
          { event_data_template with timestamp := t - p.init_time } h1 hA' hq
        have hrun : probe_run p st ((t, q) :: rest) =
            Outcome.RT (t - st.PVT_start) :: List.replicate rest.length Outcome.NA := by
          rw [probe_run_cons, hf.1]
          show (scan_queue (t - st.PVT_start)
              { event_data_template with timestamp := t - p.init_time } q).PVT_RT ::
            probe_run p (end_probe p st) rest = _
          rw [hf.2, probe_run_inactive p (end_probe p st) (end_probe_fields p st).1 rest]
        have hts : st.PVT_start ≤ t := h2 (t, q) (List.mem_cons_self _ _)
        have hlt1 : t < st.PVT_start + 1 := by linarith
        refine ⟨?_, ?_, ?_, ?_⟩
        · intro o ho r hr
          rw [hrun] at ho
          rcases List.mem_cons.mp ho with h | h
          · rw [h] at hr
            injection hr with hinj
            constructor
            · rw [← hinj]
              linarith
            · rw [← hinj]
              exact hA'
          · rw [List.eq_of_mem_replicate h] at hr
            exact absurd hr (fun hh => Outcome.noConfusion hh)
        · rw [hrun, response_count_cons _ _ (rt_ne_NA _), response_count_replicate_NA]
        · intro _
          rw [hrun, response_count_cons _ _ (rt_ne_NA _), response_count_replicate_NA]
        · rw [hrun]
          constructor
          · intro hmem
            rcases List.mem_cons.mp hmem with h | h
            · exact absurd h (fun hh => Outcome.noConfusion hh)
            · exact absurd h (timeout_not_mem_replicate_NA _)
          · rintro ⟨-, hall⟩
            have hcontra := hall (t, q) (List.mem_cons_self _ _) hlt1
            rw [hq] at hcontra
            exact Bool.noConfusion hcontra
      · have hq' : has_space q = false := by
          cases hb : has_space q
          · rfl
          · exact absurd hb hq
        have hf := fetch_na p st t q
          { event_data_template with timestamp := t - p.init_time } h1 hA' hq' rfl
        have hrun : probe_run p st ((t, q) :: rest) =
            Outcome.NA :: probe_run p st rest := by
          rw [probe_run_cons, hf.1]
          show (scan_queue (t - st.PVT_start)
              { event_data_template with timestamp := t - p.init_time } q).PVT_RT ::
            probe_run p st rest = _
          rw [hf.2]
        have h2' : ∀ tk2 ∈ rest, st.PVT_start ≤ tk2.1 :=
          fun tk2 htk2 => h2 tk2 (List.mem_cons_of_mem _ htk2)
        have h3' := (List.pairwise_cons.mp h3).2
        obtain ⟨ia, ib, ic, id⟩ := ih h2' h3'
        have hts : st.PVT_start ≤ t := h2 (t, q) (List.mem_cons_self _ _)
        have hlt1 : t < st.PVT_start + 1 := by linarith
        refine ⟨?_, ?_, ?_, ?_⟩
        · intro o ho r hr
          rw [hrun] at ho
          rcases List.mem_cons.mp ho with h | h
          · rw [h] at hr
            exact absurd hr (fun hh => Outcome.noConfusion hh)
          · exact ia o h r hr
        · rw [hrun, response_count_cons_NA]
          exact ib
        · rintro ⟨tk2, htk2, hge⟩
          rw [hrun, response_count_cons_NA]
          rcases List.mem_cons.mp htk2 with h | h
          · rw [h] at hge
            exact absurd hge (not_le.mpr hlt1)
          · exact ic ⟨tk2, h, hge⟩
        · rw [hrun]
          constructor
          · intro hmem
            have hmem' : Outcome.TIMEOUT ∈ probe_run p st rest := by
              rcases List.mem_cons.mp hmem with h | h
              · exact absurd h (fun hh => Outcome.noConfusion hh)
              · exact h
            obtain ⟨⟨tk2, htk2, hge⟩, hall⟩ := id.mp hmem'
            refine ⟨⟨tk2, List.mem_cons_of_mem _ htk2, hge⟩, ?_⟩
            intro tk3 htk3 hlt3
            rcases List.mem_cons.mp htk3 with h | h
            · rw [h]
              exact hq'
            · exact hall tk3 h hlt3
          · rintro ⟨⟨tk2, htk2, hge⟩, hall⟩
            have htk2' : tk2 ∈ rest := by
              rcases List.mem_cons.mp htk2 with h | h
              · rw [h] at hge
                exact absurd hge (not_le.mpr hlt1)
              · exact h
            refine List.mem_cons_of_mem _ (id.mpr ⟨⟨tk2, htk2', hge⟩, ?_⟩)
            intro tk3 htk3 hlt3
            exact hall tk3 (List.mem_cons_of_mem _ htk3) hlt3

theorem pad_loop_stuck (duration : ℕ) (ts : List ℕ) (h : ts.sum < duration) :
    ∀ fuel : ℕ, pad_loop duration ts fuel = none := by
  intro fuel
  induction fuel with
  | zero => simp [pad_loop, h]
  | succ n ih => simp [pad_loop, h, ih]

/-! ### Claim theorems -/

/-- C1: the claim states that every schedule produced by
`generate_PVT_timestamps` is non-decreasing with its final element within one
maximum ITI of the configured total duration.  The code contradicts the
second half (and its own comment "If sum longer than desired, iteratively
trim values"): the trimming loop's guard `np.sum(timestamps) < exp_duration`
is false on entry to the over-long branch, so nothing is ever trimmed.  With
`exp_duration = 60`, `PVT_ITI = [2, 10]` and all ten draws equal to 10 (a
possible `np.random.randint(2, 11)` outcome), the returned schedule ends at
100, which exceeds `duration + max ITI = 70`. -/
theorem generate_PVT_timestamps_overrun :
    generate_PVT_timestamps 60 2 10 (fun _ => 10) 5 =
      some [10, 20, 30, 40, 50, 60, 70, 80, 90, 100] ∧
    60 + 10 < 100 :=
  ⟨by decide, by decide⟩

/-- C2: the claim states that `generate_PVT_timestamps` terminates for every
configuration with `0 < min ITI ≤ max ITI`, in particular returning a
possibly-empty schedule when the duration is below the minimum interval.  The
code contradicts this: with `exp_duration = 1` and `PVT_ITI = [2, 10]` the
initial array is empty, its sum 0 is below the duration, and the padding loop
`while np.sum(timestamps) < exp_duration` never terminates because the result
of `np.append` is discarded.  For every random stream and every fuel bound
the embedded function is still looping when the fuel runs out. -/
theorem generate_PVT_timestamps_hangs (draws : ℕ → ℕ) (fuel : ℕ) :
    generate_PVT_timestamps 1 2 10 draws fuel = none := by
  have hts : (List.range (event_count 1 2 10)).map draws = [] := rfl
  have hstuck := pad_loop_stuck 1 [] (by norm_num) fuel
  simp only [generate_PVT_timestamps, hts]
  norm_num [hstuck]

theorem pyint_of_nonneg (w : ℚ) (hw : 0 ≤ w) : pyint w = ⌊w⌋ := if_pos hw

theorem pyint_of_neg (w : ℚ) (hw : ¬ 0 ≤ w) : pyint w = ⌈w⌉ := if_neg hw

theorem position_set_out_of_range (lo hi : ℤ) (val : ℚ)
    (h : ¬ (lo ≤ pyint val ∧ pyint val < hi)) :
    position_set lo hi val = if val < (lo : ℚ) then (lo : ℚ) else (hi : ℚ) := by
  unfold position_set
  rw [if_pos h]

theorem position_set_in_range (lo hi : ℤ) (val : ℚ)
    (h : lo ≤ pyint val ∧ pyint val < hi) :
    position_set lo hi val = val := by
  unfold position_set
  rw [if_neg (not_not_intro h)]

/-- C5: the `position` setter saturates.  A raw value of arbitrary magnitude
below the lower bound is pinned to the lower bound; a raw value above the
upper bound is pinned to the upper bound; an in-range raw value is stored
unchanged (so the setter never wraps); and consequently every stored value
lies in the closed interval `[x_bounds[0], x_bounds[1]]`.  Both assignments
to `self.position` — the per-frame integration in `refresh` (line 215) and
the post-probe recentring (line 332) — go through this setter.  The bounds
hypotheses `1 ≤ lo < hi` hold for the session configuration, where the lower
bound is half the cursor diameter in pixels (lines 103-106). -/
theorem position_saturates (lo hi : ℤ) (val : ℚ) (h1 : 1 ≤ lo) (h2 : lo < hi) :
    ((lo : ℚ) ≤ position_set lo hi val ∧ position_set lo hi val ≤ (hi : ℚ)) ∧
    (val < (lo : ℚ) → position_set lo hi val = (lo : ℚ)) ∧
    ((hi : ℚ) < val → position_set lo hi val = (hi : ℚ)) ∧
    ((lo : ℚ) ≤ val → val ≤ (hi : ℚ) → position_set lo hi val = val) := by
  have hloq : (1 : ℚ) ≤ (lo : ℚ) := by exact_mod_cast h1
  have hlh : (lo : ℚ) < (hi : ℚ) := by exact_mod_cast h2
  have hbelow : val < (lo : ℚ) → position_set lo hi val = (lo : ℚ) := by
    intro hv
    have hout : ¬ (lo ≤ pyint val ∧ pyint val < hi) := by
      rintro ⟨ha, -⟩
      by_cases h0 : 0 ≤ val
      · rw [pyint_of_nonneg val h0] at ha
        exact absurd (Int.le_floor.mp ha) (not_le.mpr hv)
      · rw [pyint_of_neg val h0] at ha
        have hc0 : ⌈val⌉ ≤ 0 :=
          Int.ceil_le.mpr (by exact_mod_cast le_of_lt (not_le.mp h0))
        omega
    rw [position_set_out_of_range lo hi val hout, if_pos hv]
  have habove : (hi : ℚ) < val → position_set lo hi val = (hi : ℚ) := by
    intro hv
    have h0 : 0 ≤ val := by linarith
    have hfl : hi ≤ ⌊val⌋ := Int.le_floor.mpr (le_of_lt hv)
    have hout : ¬ (lo ≤ pyint val ∧ pyint val < hi) := by
      rintro ⟨-, hb⟩
      rw [pyint_of_nonneg val h0] at hb
      omega
    have hnv : ¬ val < (lo : ℚ) := not_lt.mpr (by linarith)
    rw [position_set_out_of_range lo hi val hout, if_neg hnv]
  have hid : (lo : ℚ) ≤ val → val ≤ (hi : ℚ) → position_set lo hi val = val := by
    intro ha hb
    have h0 : 0 ≤ val := by linarith
    have hfl : lo ≤ ⌊val⌋ := Int.le_floor.mpr ha
    by_cases hh : ⌊val⌋ < hi
    · exact position_set_in_range lo hi val
        (by rw [pyint_of_nonneg val h0]; exact ⟨hfl, hh⟩)
    · have hge : (hi : ℚ) ≤ (⌊val⌋ : ℚ) := by exact_mod_cast not_lt.mp hh
      have hfle : (⌊val⌋ : ℚ) ≤ val := Int.floor_le val
      have hval : val = (hi : ℚ) := le_antisymm hb (by linarith)
      have hout : ¬ (lo ≤ pyint val ∧ pyint val < hi) := by
        rintro ⟨-, hbb⟩
        rw [pyint_of_nonneg val h0] at hbb
        omega
      rw [position_set_out_of_range lo hi val hout,
        if_neg (not_lt.mpr (by linarith))]
      exact hval.symm
  refine ⟨?_, hbelow, habove, hid⟩
  by_cases hv1 : val < (lo : ℚ)
  · rw [hbelow hv1]
    exact ⟨le_refl _, le_of_lt hlh⟩
  · by_cases hv2 : (hi : ℚ) < val
    · rw [habove hv2]
      exact ⟨le_of_lt hlh, le_refl _⟩
    · rw [hid (not_lt.mp hv1) (not_lt.mp hv2)]
      exact ⟨not_lt.mp hv1, not_lt.mp hv2⟩

/-- Witness for C5 at the spec's scenario: bounds `[100, 900]`, raw value
5000 is pinned to the upper bound 900 (not wrapped), hence inside the
bounds. -/
theorem position_saturates_witness :
    position_set 100 900 5000 = (900 : ℚ) ∧
    ((100 : ℚ) ≤ position_set 100 900 5000 ∧ position_set 100 900 5000 ≤ (900 : ℚ)) :=
  ⟨(position_saturates 100 900 5000 (by decide) (by decide)).2.2.1 (by decide),
    (position_saturates 100 900 5000 (by decide) (by decide)).1⟩

/-- C7: the primary buffeting force is a pure function of the elapsed
timestamp alone — two evaluations from arbitrary engine states and event
records agree whenever the timestamps agree — and equals
`sin t + sin (0.3 t) + sin (0.5 t) + sin (0.7 t) - sin (0.9 t)`.  The sine
routine is abstract (`sinF`); the identity holds for every such function. -/
theorem buffeting_force_pure (sinF : ℚ → ℚ) (st1 st2 : CurrentState)
    (ev1 ev2 : EventData) (h : ev1.timestamp = ev2.timestamp) :
    buffeting_force sinF st1 ev1 = buffeting_force sinF st2 ev2 ∧
    buffeting_force sinF st1 ev1 =
      sinF ev1.timestamp + sinF (0.3 * ev1.timestamp) + sinF (0.5 * ev1.timestamp) +
        sinF (0.7 * ev1.timestamp) - sinF (0.9 * ev1.timestamp) := by
  unfold buffeting_force
  rw [h]
  exact ⟨rfl, rfl⟩

/-- Witness for C7: two different engine states, the same timestamp `t = 7`,
the identity sine stand-in. -/
theorem buffeting_force_pure_witness :
    buffeting_force (fun x => x) st0 { event_data_template with timestamp := 7 } =
      buffeting_force (fun x => x) stP
        { event_data_template with user_input := 3, timestamp := 7 } ∧
    buffeting_force (fun x => x) st0 { event_data_template with timestamp := 7 } =
      (7 : ℚ) + 0.3 * 7 + 0.5 * 7 + 0.7 * 7 - 0.9 * 7 :=
  buffeting_force_pure (fun x => x) st0 stP
    { event_data_template with timestamp := 7 }
    { event_data_template with user_input := 3, timestamp := 7 } rfl

/-- C4: at most one probe is active at a tick (the probe flag is a single
boolean), and the Idle-to-Probing transition never fires while a probe is in
progress: if `do_PVT` holds at the start of a tick, neither the schedule
index nor the recorded probe start time changes during the tick, and in any
single tick the schedule index advances by at most one, no matter how many
scheduled onsets have already passed. -/
theorem single_probe_guard (sinF : ℚ → ℚ) (p : SessionParams) (st : CurrentState)
    (t : ℚ) (q : List Event) :
    (st.do_PVT = true →
      (refresh sinF p st t q).1.PVT_event_count = st.PVT_event_count ∧
      (refresh sinF p st t q).1.PVT_start = st.PVT_start) ∧
    (refresh sinF p st t q).1.PVT_event_count ≤ st.PVT_event_count + 1 := by
  obtain ⟨hs, hc, hm, hd⟩ := refresh_state_fields sinF p st t q
  constructor
  · intro h
    rw [hc, hs, check_schedule_active p st t h]
    exact ⟨rfl, rfl⟩
  · rw [hc]
    exact check_schedule_count_le p st t

/-- Witness for C4 at a probing state (`stP`, probe begun at 5) on the tick
`t = 6`: the schedule index and probe start are untouched. -/
theorem single_probe_guard_witness :
    ((refresh sinF0 p0 stP 6 []).1.PVT_event_count = stP.PVT_event_count ∧
      (refresh sinF0 p0 stP 6 []).1.PVT_start = stP.PVT_start) ∧
    (refresh sinF0 p0 stP 6 []).1.PVT_event_count ≤ stP.PVT_event_count + 1 :=
  ⟨(single_probe_guard sinF0 p0 stP 6 []).1 rfl, (single_probe_guard sinF0 p0 stP 6 []).2⟩

/-- C6 counterexample: the claim says the Idle-to-Probing transition fires
only when the `poll_while_moving` / `poll_at_fixation` policy permits a probe.
With both flags false — a configuration under which the spec-side gating
predicate never permits a probe — the transition of lines 197-203 still
fires as soon as the elapsed time passes the scheduled onset, because
`refresh` never reads the two flags. -/
theorem schedule_ignores_policy_cex :
    (check_schedule p_noPoll st0 3).do_PVT = true ∧
    (check_schedule p_noPoll st0 3).PVT_event_count = st0.PVT_event_count + 1 ∧
    policy_permits_spec p_noPoll st0 = false := by
  refine ⟨?_, ?_, rfl⟩ <;>
    norm_num [check_schedule, p_noPoll, p0, st0, List.getD_cons_zero]

/-- C6 (amended): the Idle-to-Probing transition of lines 191-203 fires on a
tick exactly when no probe is in progress, the schedule is not exhausted, and
the elapsed timestamp has reached the next scheduled onset; on firing it
records the probe start time, advances the schedule index by one and sets the
probe-active flag.  The configured `poll_while_moving` / `poll_at_fixation`
flags are stored but never consulted: the scheduling step is invariant under
changing them. -/
theorem check_schedule_fires_iff (p : SessionParams) (st : CurrentState) (t : ℚ) :
    ((check_schedule p st t).PVT_event_count = st.PVT_event_count + 1 ↔
      st.do_PVT = false ∧ st.PVT_event_count < p.PVT_timestamps.length ∧
        p.PVT_timestamps.getD st.PVT_event_count 0 ≤ t - p.init_time) ∧
    (st.do_PVT = false → st.PVT_event_count < p.PVT_timestamps.length →
      p.PVT_timestamps.getD st.PVT_event_count 0 ≤ t - p.init_time →
      check_schedule p st t =
        { st with PVT_start := t
                  PVT_event_count := st.PVT_event_count + 1
                  do_PVT := true }) ∧
    ∀ b1 b2 : Bool,
      check_schedule { p with poll_while_moving := b1, poll_at_fixation := b2 } st t =
        check_schedule p st t := by
  refine ⟨⟨?_, ?_⟩, fun h hc ht => check_schedule_fire p st t h hc ht, fun b1 b2 => rfl⟩
  · intro hcount
    by_cases h : st.do_PVT = false ∧ st.PVT_event_count < p.PVT_timestamps.length ∧
        p.PVT_timestamps.getD st.PVT_event_count 0 ≤ t - p.init_time
    · exact h
    · rw [check_schedule_no_fire p st t h] at hcount
      omega
  · intro h
    rw [check_schedule_fire p st t h.1 h.2.1 h.2.2]

/-- Witness for C6 (amended): at `t = 3` with the first onset scheduled at 2,
the idle state `st0` fires and the transition records start time, advances
the index and raises the flag. -/
theorem check_schedule_fires_iff_witness :
    check_schedule p0 st0 3 =
      { st0 with PVT_start := 3
                 PVT_event_count := st0.PVT_event_count + 1
                 do_PVT := true } :=
  (check_schedule_fires_iff p0 st0 3).2.1 rfl (by decide)
    (by norm_num [p0, st0, List.getD_cons_zero])

/-- C9 counterexample: the claim says the persisted `PVT_event` field is true
iff a probe was active during the frame.  On the frame at `t = 3` a probe
fires (and stays active through the frame: the state ends with
`do_PVT = true`), yet the row written by `__write_data` carries
`PVT_event = false`, because line 366 stores `PVT_RT is not 'NA'` — whether a
response outcome was recorded this frame — not the probe-active flag. -/
theorem PVT_event_missing_on_active_frame :
    (refresh sinF0 p0 st0 3 []).1.do_PVT = true ∧
    (refresh sinF0 p0 st0 3 []).2.PVT_event = false := by
  norm_num [refresh, check_schedule, fetch_response, compute_forces, track_phase,
    event_data_template, scan_queue, capture_input, write_data, st0, p0, sinF0]

/-- C9 (amended): in every persisted row, `PVT_event` is true iff the probe
terminated during that frame — that is, iff a probe was in progress after the
scheduling phase and is no longer in progress at the end of the frame (a
numeric reaction time or a timeout was recorded).  Probe-active frames with
no response yet are written with `PVT_event = false`. -/
theorem PVT_event_iff_terminated (sinF : ℚ → ℚ) (p : SessionParams)
    (st : CurrentState) (t : ℚ) (q : List Event) :
    (refresh sinF p st t q).2.PVT_event = true ↔
      ((check_schedule p st t).do_PVT = true ∧
        (refresh sinF p st t q).1.do_PVT = false) := by
  obtain ⟨hrt, hev⟩ := refresh_row_PVT_RT sinF p st t q
  obtain ⟨hs, hc, hm, hd⟩ := refresh_state_fields sinF p st t q
  rw [hev, hd, decide_eq_true_eq]
  exact fetch_terminates_iff p (check_schedule p st t) t q _ rfl

/-- C10: on a tick that ends with the probe still in progress (no reaction
time and no timeout recorded), the cursor position is unchanged and the
persisted `user_input` is 0: mouse input is neither captured nor integrated
while the probe is displayed, because lines 211-215 run only when `do_PVT`
is false. -/
theorem probe_frame_freezes_tracking (sinF : ℚ → ℚ) (p : SessionParams)
    (st : CurrentState) (t : ℚ) (q : List Event)
    (h : (refresh sinF p st t q).1.do_PVT = true) :
    (refresh sinF p st t q).1.x_pos = st.x_pos ∧
    (refresh sinF p st t q).2.user_input = 0 := by
  obtain ⟨hs, hc, hm, hd⟩ := refresh_state_fields sinF p st t q
  rw [hd] at h
  obtain ⟨hfr, hact, hna⟩ := fetch_active_result p (check_schedule p st t) t q _ rfl h
  have htp := track_phase_active p
    (fetch_response p (check_schedule p st t) t q
      { event_data_template with timestamp := t - p.init_time }).1
    (compute_forces sinF
      (fetch_response p (check_schedule p st t) t q
        { event_data_template with timestamp := t - p.init_time }).1
      (fetch_response p (check_schedule p st t) t q
        { event_data_template with timestamp := t - p.init_time }).2)
    q (by rw [hfr]; exact hact)
  constructor
  · have hx1 : (refresh sinF p st t q).1.x_pos =
        (fetch_response p (check_schedule p st t) t q
          { event_data_template with timestamp := t - p.init_time }).1.x_pos := by
      rw [refresh_eq, htp]
    rw [hx1, hfr]
    exact check_schedule_x_pos p st t
  · have hu1 : (refresh sinF p st t q).2.user_input =
        (compute_forces sinF
          (fetch_response p (check_schedule p st t) t q
            { event_data_template with timestamp := t - p.init_time }).1
          (fetch_response p (check_schedule p st t) t q
            { event_data_template with timestamp := t - p.init_time }).2).user_input := by
      rw [refresh_eq, htp]
      rfl
    rw [hu1,
      (compute_forces_fields sinF _ _).2.1,
      (fetch_ev_fields p (check_schedule p st t) t q _).1]
    rfl

/-- Witness for C10: probing state `stP` (probe began at 5), tick at `t = 5`
with an empty batch — the probe stays in progress, the position is unchanged
and the persisted `user_input` is 0. -/
theorem probe_frame_freezes_tracking_witness :
    (refresh sinF0 p0 stP 5 []).1.x_pos = stP.x_pos ∧
    (refresh sinF0 p0 stP 5 []).2.user_input = 0 :=
  probe_frame_freezes_tracking sinF0 p0 stP 5 []
    (by norm_num [refresh, check_schedule, fetch_response, compute_forces, track_phase,
      event_data_template, scan_queue, capture_input, write_data, stP, p0, sinF0])

/-- C8 counterexample: the claim says total force includes a secondary
component (coefficient times `cos t`) on every frame and that the modifier
index advances by one per frame.  On a concrete frame (configuration `p0`
with coefficient sequence `[1, 2, 3]`, state `st0` with index 0) the index is
still 0 afterwards — not 1 as the claim requires — the persisted
`additional_force` is 0, and the total force equals the primary buffeting
force alone: the call to `__additional_buffeting_force` is commented out in
`__compute_forces` (lines 303-307). -/
theorem modifier_not_advanced_cex :
    (refresh sinF0 p0 st0 3 []).1.current_modifier = 0 ∧
    (refresh sinF0 p0 st0 3 []).1.current_modifier ≠ st0.current_modifier + 1 ∧
    (refresh sinF0 p0 st0 3 []).2.additional_force = 0 ∧
    (refresh sinF0 p0 st0 3 []).2.total_force =
      (refresh sinF0 p0 st0 3 []).2.buffeting_force := by
  norm_num [refresh, check_schedule, fetch_response, compute_forces, track_phase,
    event_data_template, scan_queue, capture_input, write_data, buffeting_force,
    st0, p0, sinF0]

/-- C8 (amended): the secondary modulating force is never applied:
`__compute_forces` sets the total force equal to the primary buffeting force
alone, leaves the persisted `additional_force` at 0, and leaves the modifier
index unchanged on every frame (the call is commented out in the source).
The uncalled helper `__additional_buffeting_force` returns the coefficient at
the current index of the configured modifier sequence — with no `cos t`
factor — and advances the index by one, wrapping to zero after the last
element. -/
theorem secondary_force_unused (sinF : ℚ → ℚ) (p : SessionParams) (st : CurrentState)
    (t : ℚ) (q : List Event) (h : st.current_modifier < p.additional_force.length) :
    (refresh sinF p st t q).1.current_modifier = st.current_modifier ∧
    (refresh sinF p st t q).2.additional_force = 0 ∧
    (refresh sinF p st t q).2.total_force = (refresh sinF p st t q).2.buffeting_force ∧
    (additional_buffeting_force p st).2 =
      p.additional_force.get ⟨st.current_modifier, h⟩ ∧
    (additional_buffeting_force p st).1.current_modifier =
      (if st.current_modifier = p.additional_force.length - 1 then 0
       else st.current_modifier + 1) := by
  obtain ⟨hs, hc, hm, hd⟩ := refresh_state_fields sinF p st t q
  have htr := track_phase_ev_fields p
    (fetch_response p (check_schedule p st t) t q
      { event_data_template with timestamp := t - p.init_time }).1
    (compute_forces sinF
      (fetch_response p (check_schedule p st t) t q
        { event_data_template with timestamp := t - p.init_time }).1
      (fetch_response p (check_schedule p st t) t q
        { event_data_template with timestamp := t - p.init_time }).2) q
  have hcf := compute_forces_fields sinF
    (fetch_response p (check_schedule p st t) t q
      { event_data_template with timestamp := t - p.init_time }).1
    (fetch_response p (check_schedule p st t) t q
      { event_data_template with timestamp := t - p.init_time }).2
  have hfe := fetch_ev_fields p (check_schedule p st t) t q
    { event_data_template with timestamp := t - p.init_time }
  refine ⟨hm, ?_, ?_, ?_, ?_⟩
  · exact htr.2.1.trans (hcf.2.2.1.trans hfe.2.2)
  · exact (htr.2.2.1.trans hcf.2.2.2.2.1).trans
      ((htr.2.2.2.1.trans hcf.2.2.2.2.2).symm)
  · show p.additional_force.getD st.current_modifier 0 =
      p.additional_force.get ⟨st.current_modifier, h⟩
    exact List.getD_eq_get _ _ h
  · unfold additional_buffeting_force
    by_cases he : st.current_modifier = p.additional_force.length - 1 <;> simp [he]

/-- Witness for C8 (amended) at `p0` (coefficients `[1, 2, 3]`) and `st0`
(index 0). -/
theorem secondary_force_unused_witness :
    (refresh sinF0 p0 st0 3 []).1.current_modifier = st0.current_modifier ∧
    (refresh sinF0 p0 st0 3 []).2.additional_force = 0 ∧
    (refresh sinF0 p0 st0 3 []).2.total_force =
      (refresh sinF0 p0 st0 3 []).2.buffeting_force ∧
    (additional_buffeting_force p0 st0).2 =
      p0.additional_force.get ⟨st0.current_modifier, by decide⟩ ∧
    (additional_buffeting_force p0 st0).1.current_modifier =
      (if st0.current_modifier = p0.additional_force.length - 1 then 0
       else st0.current_modifier + 1) :=
  secondary_force_unused sinF0 p0 st0 3 [] (by decide)

/-- C3: over the frames of one probe (probe in progress, frame clock readings
at or after the probe start and non-decreasing), every recorded numeric
reaction time lies in `[0, 1)`; at most one frame records a non-`'NA'`
outcome, and exactly one does once a frame at or beyond one second after
probe onset occurs; and `'TIMEOUT'` is recorded iff such a frame occurs and
no qualifying space-bar key-down appears in the batch of any frame that falls
inside the one-second window. -/
theorem probe_outcome_spec (p : SessionParams) (st : CurrentState)
    (ticks : List (ℚ × List Event)) (h1 : st.do_PVT = true)
    (h2 : ∀ tk ∈ ticks, st.PVT_start ≤ tk.1)
    (h3 : List.Pairwise (fun a b : ℚ × List Event => a.1 ≤ b.1) ticks) :
    (∀ o ∈ probe_run p st ticks, ∀ r : ℚ, o = Outcome.RT r → 0 ≤ r ∧ r < 1) ∧
    response_count (probe_run p st ticks) ≤ 1 ∧
    ((∃ tk ∈ ticks, st.PVT_start + 1 ≤ tk.1) →
      response_count (probe_run p st ticks) = 1) ∧
    (Outcome.TIMEOUT ∈ probe_run p st ticks ↔
      ((∃ tk ∈ ticks, st.PVT_start + 1 ≤ tk.1) ∧
        ∀ tk ∈ ticks, tk.1 < st.PVT_start + 1 → has_space tk.2 = false)) :=
  probe_run_spec_aux p st h1 ticks h2 h3

/-- Witness for C3: probe begun at 5, two frames at `t = 5` (no key) and
`t = 6` (window elapsed). -/
theorem probe_outcome_spec_witness :
    (∀ o ∈ probe_run p0 stP [(5, []), (6, [])], ∀ r : ℚ,
      o = Outcome.RT r → 0 ≤ r ∧ r < 1) ∧
    response_count (probe_run p0 stP [(5, []), (6, [])]) ≤ 1 ∧
    ((∃ tk ∈ [((5 : ℚ), ([] : List Event)), (6, [])], stP.PVT_start + 1 ≤ tk.1) →
      response_count (probe_run p0 stP [(5, []), (6, [])]) = 1) ∧
    (Outcome.TIMEOUT ∈ probe_run p0 stP [(5, []), (6, [])] ↔
      ((∃ tk ∈ [((5 : ℚ), ([] : List Event)), (6, [])], stP.PVT_start + 1 ≤ tk.1) ∧
        ∀ tk ∈ [((5 : ℚ), ([] : List Event)), (6, [])],
          tk.1 < stP.PVT_start + 1 → has_space tk.2 = false)) :=
  probe_outcome_spec p0 stP [(5, []), (6, [])] rfl (by decide) (by decide)

end CompTrack
